import Mathlib

/-!
Shallow embedding of the `ai-purchase-tracker` Slack webhook server.

The authoritative handler lives in `src/unnamed/part_000` (the spec's design
notes supersede the near-duplicate synchronous handler in `src/app.js`).
The embedding models:

* `parseInput` (source lines 107-132): the two JS regular expressions are
  embedded as explicit backtracking matchers with JS semantics (lazy first
  group, greedy number run, greedy optional decimal part, greedy optional
  currency suffix).  JS numbers are modelled as exact rationals; every
  amount reachable in this program is a short decimal, exactly representable.
* `verifySlackRequest` (source lines 36-61): HMAC-SHA256 is an external
  crypto primitive and is modelled as an abstract string function parameter;
  the base-string construction, hex prefixing, timestamp-freshness check
  (including the JS string-to-number coercion the source relies on, where a
  non-numeric timestamp compares as NaN and is NOT rejected) and the exact
  comparison are embedded.  The `body` argument is the string the middleware
  serialises from the parsed request body (`JSON.stringify(req.body)`,
  line 39).
* `getSlackUserInfo` (lines 96-104), `addToSpreadsheet` (lines 64-93) and the
  `/slack/commands` handler (lines 135-243): external calls (Slack user
  lookup, Sheets append, chat messages) are modelled through an environment
  record and an explicit event trace; the spreadsheet is a list of rows.
  Note that the route is registered WITHOUT the `verifySlackRequest`
  middleware (line 135: `app.post('/slack/commands', async (req, res)`), so
  the handler never consults the signature headers.
-/

namespace AiPurchaseTracker

/-- Whitespace for the JS `\s` class and `String.prototype.trim`, restricted
to the characters relevant here (ASCII whitespace and NBSP). -/
def jsIsSpace (c : Char) : Bool :=
  c == ' ' || c == '\t' || c == '\n' || c == '\r' || c == '\x0B' ||
    c == '\x0C' || c == '\u00A0'

/-- `String.prototype.trim`. -/
def jsTrim (s : String) : String :=
  String.mk (((s.data.dropWhile jsIsSpace).reverse.dropWhile jsIsSpace).reverse)

/-- The JS `\d` class. -/
def isDigitCh (c : Char) : Bool := c.isDigit

/-- The `[\d,]` class of the first pattern. -/
def isDigitOrComma (c : Char) : Bool := c.isDigit || c == ','

/-- The JS `.` class: any character except a line terminator. -/
def isDotChar (c : Char) : Bool :=
  !(c == '\n' || c == '\r' || c == '\u2028' || c == '\u2029')

/-- Decimal digits to a natural number. -/
def digitsToNat (ds : List Char) : Nat :=
  ds.foldl (fun n c => 10 * n + (c.toNat - 48)) 0

/-- JS `parseFloat` on the strings reachable in `parseInput` after the
`[\$,]` strip: an optional digit run, an optional `.` followed by a digit
run, trailing junk ignored; no digits at all is `NaN`, modelled as `none`.
JS numbers are modelled as exact rationals. -/
def jsParseFloat (s : String) : Option ℚ :=
  let cs := s.data
  let intPart := cs.takeWhile isDigitCh
  let rest := cs.drop intPart.length
  match rest with
  | '.' :: rest' =>
    let fracPart := rest'.takeWhile isDigitCh
    if intPart.isEmpty && fracPart.isEmpty then none
    else some ((digitsToNat intPart : ℚ) +
      (digitsToNat fracPart : ℚ) / (10 : ℚ) ^ fracPart.length)
  | _ => if intPart.isEmpty then none else some (digitsToNat intPart : ℚ)

/-- End-of-input check for pattern 1, after the captured amount:
`\s*(?:달러|원|USD|KRW)?$`.  The whitespace run is greedy; the optional
currency word must then consume exactly the remainder. -/
def checkEnd1 (cs : List Char) : Bool :=
  let r := cs.dropWhile jsIsSpace
  r == [] || r == "달러".data || r == "원".data || r == "USD".data ||
    r == "KRW".data

/-- End-of-input check for pattern 2, after the captured amount: `\s*$`. -/
def checkEnd2 (cs : List Char) : Bool :=
  (cs.dropWhile jsIsSpace).isEmpty

/-- The greedy optional `(?:\.\d{2})?` followed by the pattern's tail check:
first try to consume `.` and two digits, and on failure of the tail fall
back to consuming nothing (JS backtracking order). `taken` is the part of
the amount capture already consumed, `rest` the remaining input; returns
the full amount capture on success. -/
def dotDDEnd (checkEnd : List Char → Bool) (taken rest : List Char) :
    Option (List Char) :=
  match rest with
  | '.' :: d1 :: d2 :: rest' =>
    if d1.isDigit && d2.isDigit && checkEnd rest' then
      some (taken ++ ['.', d1, d2])
    else if checkEnd rest then some taken else none
  | _ => if checkEnd rest then some taken else none

/-- Backtracking over the greedy one-or-more digit run (`[\d,]+` resp.
`\d+`): the run is consumed maximally first and then shortened one character
at a time (`revTaken` holds the candidate run reversed; characters move back
onto `rest`).  At least one character must remain in the run. -/
def numBacktrack (checkEnd : List Char → Bool) :
    List Char → List Char → Option (List Char)
  | [], _ => none
  | c :: revT, rest =>
    match dotDDEnd checkEnd ((c :: revT).reverse) rest with
    | some g => some g
    | none => numBacktrack checkEnd revT (c :: rest)

/-- `[\d,]+(?:\.\d{2})?` of pattern 1 (without the optional `$` sign),
anchored by `checkEnd1`. -/
def matchNum1 (cs : List Char) : Option (List Char) :=
  let run := cs.takeWhile isDigitOrComma
  numBacktrack checkEnd1 run.reverse (cs.drop run.length)

/-- The amount part of pattern 1, `\$?[\d,]+(?:\.\d{2})?`, returning the
capture of group 2 (including the `$` when consumed), anchored at the end
by `\s*(?:달러|원|USD|KRW)?$`.  The optional `\$?` is greedy: with a leading
`$` the branch that consumes it is tried first. -/
def matchTail1 (cs : List Char) : Option (List Char) :=
  match cs with
  | '$' :: cs' =>
    match (matchNum1 cs').map (fun g => '$' :: g) with
    | some g => some g
    | none => matchNum1 cs
  | _ => matchNum1 cs

/-- The amount part of pattern 2, `\d+(?:\.\d{2})?`, anchored by `\s*$`. -/
def matchTail2 (cs : List Char) : Option (List Char) :=
  let run := cs.takeWhile isDigitCh
  numBacktrack checkEnd2 run.reverse (cs.drop run.length)

/-- The common frame `^(.+?)\s+⟨tail⟩` of both patterns with a lazy first
group: split positions are tried left to right (shortest group 1 first);
each group-1 character must match `.` (no line terminator); the `\s+` is
greedy, and since neither tail can start with whitespace only the maximal
whitespace run is viable.  Returns the group-1 and group-2 captures of the
first successful split. -/
def findSplit (tailMatch : List Char → Option (List Char)) :
    List Char → List Char → Option (List Char × List Char)
  | _, [] => none
  | g1rev, c :: rest =>
    if isDotChar c then
      let g1rev' := c :: g1rev
      let attempt : Option (List Char × List Char) :=
        match rest with
        | [] => none
        | w :: _ =>
          if jsIsSpace w then
            match tailMatch (rest.dropWhile jsIsSpace) with
            | some g2 => some (g1rev'.reverse, g2)
            | none => none
          else none
      match attempt with
      | some r => some r
      | none => findSplit tailMatch g1rev' rest
    else none

/-- `/^(.+?)\s+(\$?[\d,]+(?:\.\d{2})?)\s*(?:달러|원|USD|KRW)?$/` applied to
a (trimmed) input, returning the two captures of the first match. -/
def matchPattern1 (t : List Char) : Option (List Char × List Char) :=
  findSplit matchTail1 [] t

/-- `/^(.+?)\s+(\d+(?:\.\d{2})?)\s*$/` applied to a (trimmed) input. -/
def matchPattern2 (t : List Char) : Option (List Char × List Char) :=
  findSplit matchTail2 [] t

/-- The parsed pair returned by `parseInput` (source lines 123-126). -/
structure ParsedInput where
  programName : String
  amount : ℚ
deriving DecidableEq

/-- `match[2].replace(/[\$,]/g, '').trim()` followed by the
`parseFloat`/`isNaN` validation (source lines 119-122). -/
def parseAmountStr (g2 : List Char) : Option ℚ :=
  jsParseFloat (jsTrim (String.mk (g2.filter (fun c => !(c == '$' || c == ',')))))

/-- One iteration of the pattern loop body: on a regex match, strip `$` and
commas from the amount capture and validate it as a number; a failed
validation falls through to the next pattern (source lines 115-128). -/
def patternExtract (m : Option (List Char × List Char)) : Option ParsedInput :=
  match m with
  | some (g1, g2) =>
    (parseAmountStr g2).map (fun a => ⟨jsTrim (String.mk g1), a⟩)
  | none => none

/-- `parseInput` (source lines 107-132): try pattern 1 then pattern 2 on the
trimmed text, first successful numeric extraction wins, otherwise `null`
(modelled as `none`). -/
def parseInput (text : String) : Option ParsedInput :=
  match patternExtract (matchPattern1 (jsTrim text).data) with
  | some p => some p
  | none => patternExtract (matchPattern2 (jsTrim text).data)

/-! ### Signature verification (source lines 36-61) -/

/-- JS truthiness of a request-header value (`!signature`, `!timestamp` at
line 41): absent (`none`) and empty-string headers are falsy. -/
def jsTruthy (v : Option String) : Bool :=
  match v with
  | none => false
  | some s => !(s == "")

/-- JS numeric coercion of a string (`time - timestamp` at line 46 coerces
the header string), on the fragment relevant here: optional surrounding
whitespace, an optional sign, and a non-empty digit run give that integer;
the empty string coerces to `0`; anything else (including the
decimal-fraction and exponent forms, which a Slack timestamp never takes --
the spec's data model declares the timestamp an integer) is `NaN`,
modelled as `none`. -/
def jsStrToNumber (s : String) : Option Int :=
  let t := (jsTrim s).data
  match t with
  | [] => some 0
  | '-' :: ds =>
    if !ds.isEmpty && ds.all isDigitCh then some (-(digitsToNat ds : Int)) else none
  | '+' :: ds =>
    if !ds.isEmpty && ds.all isDigitCh then some (digitsToNat ds : Int) else none
  | ds =>
    if ds.all isDigitCh then some (digitsToNat ds : Int) else none

/-- `Math.abs(time - timestamp) > 300` (line 46).  When the timestamp
string does not coerce to a number the subtraction is `NaN`, and
`NaN > 300` is `false` in JS, so the request is NOT rejected as old:
the latent bug the spec points out. -/
def tooOldCheck (now : Int) (ts : String) : Bool :=
  match jsStrToNumber ts with
  | some n => 300 < (now - n).natAbs
  | none => false

/-- Outcome of the verification middleware: an early `res.status(...)` reply
or falling through to `next()`. -/
inductive VerifyResult where
  | reject (status : Nat) (message : String)
  | next
deriving DecidableEq

/-- `verifySlackRequest` (source lines 36-61).  `hmacSha256Hex` is the
external crypto primitive `crypto.createHmac('sha256', secret)...digest('hex')`,
modelled abstractly as a function of the secret and the message; `now` is
`Math.floor(Date.now() / 1000)`; `body` is the string the middleware
serialises from the parsed request body (`JSON.stringify(req.body)`). -/
def verifySlackRequest (hmacSha256Hex : String → String → String)
    (secret : String) (now : Int) (signature timestamp : Option String)
    (body : String) : VerifyResult :=
  if !(jsTruthy signature) || !(jsTruthy timestamp) then
    .reject 400 "Invalid request"
  else
    let ts := timestamp.getD ""
    if tooOldCheck now ts then .reject 400 "Request too old"
    else
      let sigBasestring := "v0:" ++ ts ++ ":" ++ body
      let mySignature := "v0=" ++ hmacSha256Hex secret sigBasestring
      if signature.getD "" ≠ mySignature then .reject 400 "Invalid signature"
      else .next

/-! ### External collaborators and the command handler (lines 64-243) -/

/-- The fields of `result.user` consulted by `getSlackUserInfo` (line 99);
`real_name` and `display_name` may be absent, `name` always exists for a
Slack user record. -/
structure SlackUserInfo where
  real_name : Option String
  display_name : Option String
  name : String
deriving DecidableEq

/-- JS `a || b` on an optional string against a string fallback: absent and
empty-string values are falsy. -/
def jsOrElse (a : Option String) (b : String) : String :=
  match a with
  | some s => if s == "" then b else s
  | none => b

/-- The environment of external collaborators: the Slack `users.info` call
(which may fail), whether the Sheets `values.append` call succeeds, and
`new Date().toLocaleDateString('ko-KR')`. -/
structure Env where
  userLookup : String → Except Unit SlackUserInfo
  sheetsAppendOk : Bool
  currentDate : String

/-- `getSlackUserInfo` (source lines 96-104): on a successful lookup the
first truthy of `real_name`, `display_name`, `name`; any lookup error is
caught and the sentinel `"Unknown User"` returned. -/
def getSlackUserInfo (env : Env) (userId : String) : String :=
  match env.userLookup userId with
  | .ok u => jsOrElse u.real_name (jsOrElse u.display_name u.name)
  | .error _ => "Unknown User"

/-- A spreadsheet cell: the row literal mixes strings and the numeric
amount (source lines 66-74). -/
inductive Cell where
  | str (s : String)
  | num (q : ℚ)
deriving DecidableEq

/-- A spreadsheet row; the ledger is the list of appended rows. -/
abbrev Row := List Cell

/-- The single row `[date, purchaserName, programName, amount, '']` built at
source lines 66-74. -/
def purchaseRow (date purchaserName programName : String) (amount : ℚ) : Row :=
  [.str date, .str purchaserName, .str programName, .num amount, .str ""]

/-- `addToSpreadsheet` (source lines 64-93): appends the single purchase row
via the Sheets API and returns `true`; any error of the call is caught,
logged, and converted to `false` with nothing appended.  The function is
total -- no error escapes its boundary. -/
def addToSpreadsheet (env : Env) (ledger : List Row)
    (purchaserName programName : String) (amount : ℚ) (date : String) :
    Bool × List Row :=
  let values : List Row := [purchaseRow date purchaserName programName amount]
  if env.sheetsAppendOk then (true, ledger ++ values) else (false, ledger)

/-- A follow-up chat message of the handler, by kind and payload
(the rendered Korean texts of lines 147-241 are presentation). -/
inductive Message where
  | usageHint (command : String)
  | formatError (command : String)
  | purchaseRegistered (userName programName : String) (amount : ℚ) (date : String)
  | sheetsFailure
deriving DecidableEq

/-- An observable step of the request handler, in order of occurrence. -/
inductive Event where
  | httpResponse (status : Nat) (text : String) (ephemeral : Bool)
  | userLookup (userId : String)
  | sheetAppend (row : Row)
  | postMessage (channel : String) (message : Message)
deriving DecidableEq

/-- The immediate acknowledgment body (source lines 139-142). -/
def ackText : String := "처리 중입니다... 잠시만 기다려주세요."

/-- The immediate `res.status(200).send(...)` acknowledgment. -/
def ackEvent : Event := .httpResponse 200 ackText true

/-- The form fields of the slash-command payload destructured at line 136. -/
structure SlackCommandRequest where
  command : String
  text : String
  user_id : String
  channel_id : String
deriving DecidableEq

/-- The work of the `/slack/commands` handler after the acknowledgment
(source lines 144-242): nothing for a foreign command; a usage hint for
empty text; a format-error message when `parseInput` returns no match;
otherwise user lookup, the spreadsheet append, and a success or failure
follow-up.  Returns the emitted events and the resulting ledger. -/
def handleAfterAck (env : Env) (ledger : List Row) (req : SlackCommandRequest) :
    List Event × List Row :=
  if req.command = "/ai구매" then
    if jsTrim req.text = "" then
      ([.postMessage req.channel_id (.usageHint req.command)], ledger)
    else
      match parseInput req.text with
      | none => ([.postMessage req.channel_id (.formatError req.command)], ledger)
      | some p =>
        let userName := getSlackUserInfo env req.user_id
        let currentDate := env.currentDate
        let res := addToSpreadsheet env ledger userName p.programName p.amount currentDate
        let report : Message :=
          if res.1 then .purchaseRegistered userName p.programName p.amount currentDate
          else .sheetsFailure
        ([.userLookup req.user_id,
          .sheetAppend (purchaseRow currentDate userName p.programName p.amount),
          .postMessage req.channel_id report], res.2)
  else ([], ledger)

/-- The `/slack/commands` handler (source lines 135-243): the acknowledgment
is sent first, before any other work. -/
def handleSlackCommand (env : Env) (ledger : List Row)
    (req : SlackCommandRequest) : List Event × List Row :=
  let rest := handleAfterAck env ledger req
  (ackEvent :: rest.1, rest.2)

/-- An inbound HTTP request to `POST /slack/commands`, headers included. -/
structure InboundHttpRequest where
  signatureHeader : Option String
  timestampHeader : Option String
  command : String
  text : String
  user_id : String
  channel_id : String

/-- The route as registered at source line 135:
`app.post('/slack/commands', async (req, res) => ...)` -- WITHOUT the
`verifySlackRequest` middleware, so the handler runs on every request and
the signature headers are never consulted. -/
def slackCommandsRoute (env : Env) (ledger : List Row)
    (req : InboundHttpRequest) : List Event × List Row :=
  handleSlackCommand env ledger ⟨req.command, req.text, req.user_id, req.channel_id⟩

/-! ### Concrete instances used by witnesses -/

/-- A concrete stand-in for the external HMAC-SHA256 primitive; the
properties proved below hold for every such function. -/
def hmacDemo (secret message : String) : String := secret ++ "/" ++ message

/-- A demo environment: successful user lookup and Sheets append. -/
def envDemo : Env := ⟨fun _ => .ok ⟨some "Alice", none, "alice"⟩, true, "2026. 10. 11."⟩

/-- A demo environment whose user lookup fails. -/
def envErrDemo : Env := ⟨fun _ => .error (), true, "2026. 10. 11."⟩

/-- A demo environment whose Sheets append fails. -/
def envSheetsFailDemo : Env := ⟨fun _ => .ok ⟨some "Alice", none, "alice"⟩, false, "2026. 10. 11."⟩

/-- A demo well-formed purchase command. -/
def reqDemo : SlackCommandRequest := ⟨"/ai구매", "ChatGPT Plus 20000", "U1", "C1"⟩

/-! ### Helper lemmas -/

/-- A text that trims to the empty string matches neither pattern. -/
theorem parseInput_of_trim_empty (s : String) (h : jsTrim s = "") :
    parseInput s = none := by
  unfold parseInput
  rw [h]
  rfl

/-- A successful parse forces the trimmed text to be non-empty, so the
handler's empty-text guard cannot fire. -/
theorem trim_ne_empty_of_parse_some (s : String) (p : ParsedInput)
    (hp : parseInput s = some p) : jsTrim s ≠ "" := by
  intro he
  rw [parseInput_of_trim_empty s he] at hp
  exact Option.noConfusion hp

/-- Setting a list element in bounds is visible at that index. -/
theorem get_of_set_in_bounds (l : List Char) (i : Nat) (c : Char)
    (h : i < l.length) : (l.set i c).get? i = some c := by
  rw [List.get?_eq_getElem?]
  exact List.getElem?_set_eq_of_lt c h

/-- The ledger result of a successfully handled, well-formed purchase
command: exactly one row is appended. -/
theorem handle_appends_single_row (env : Env) (ledger : List Row)
    (req : SlackCommandRequest) (p : ParsedInput)
    (hcmd : req.command = "/ai구매") (hp : parseInput req.text = some p)
    (hok : env.sheetsAppendOk = true) :
    (handleSlackCommand env ledger req).2
      = ledger ++ [purchaseRow env.currentDate (getSlackUserInfo env req.user_id)
          p.programName p.amount] := by
  have htrim := trim_ne_empty_of_parse_some req.text p hp
  simp [handleSlackCommand, handleAfterAck, hcmd, htrim, hp, addToSpreadsheet, hok]

/-! ### Claim theorems -/

/-- C4: the Input Parser maps "ChatGPT Plus 20000" to item "ChatGPT Plus"
with amount 20000, "Claude Pro $20" to item "Claude Pro" with amount 20,
"Midjourney 10달러" to item "Midjourney" with amount 10, and
"Tool 20,000.50" to amount 20000.5 ($ and comma stripped, decimal kept). -/
theorem parseInput_examples :
    parseInput "ChatGPT Plus 20000" = some ⟨"ChatGPT Plus", 20000⟩ ∧
    parseInput "Claude Pro $20" = some ⟨"Claude Pro", 20⟩ ∧
    parseInput "Midjourney 10달러" = some ⟨"Midjourney", 10⟩ ∧
    parseInput "Tool 20,000.50" = some ⟨"Tool", 20000.5⟩ := by
  refine ⟨by decide, by decide, by decide, ?_⟩
  have h : parseInput "Tool 20,000.50"
      = some ⟨"Tool", ((20000 : ℕ) : ℚ) + ((50 : ℕ) : ℚ) / (10 : ℚ) ^ (2 : ℕ)⟩ := rfl
  rw [h]
  norm_num [Option.some.injEq, ParsedInput.mk.injEq]

/-- C5: whenever, for each of the two candidate patterns, either the
pattern does not match the (trimmed) input or the extracted amount token
does not parse as a number after stripping `$` and commas, `parseInput`
returns the no-match signal `none`; in particular "just text" (no trailing
numeric token) yields no match. -/
theorem parseInput_none_without_numeric_match (s : String)
    (h1 : matchPattern1 (jsTrim s).data = none ∨
      ∃ g1 g2, matchPattern1 (jsTrim s).data = some (g1, g2) ∧ parseAmountStr g2 = none)
    (h2 : matchPattern2 (jsTrim s).data = none ∨
      ∃ g1 g2, matchPattern2 (jsTrim s).data = some (g1, g2) ∧ parseAmountStr g2 = none) :
    parseInput s = none ∧ parseInput "just text" = none := by
  have e1 : patternExtract (matchPattern1 (jsTrim s).data) = none := by
    rcases h1 with h | ⟨g1, g2, hm, ha⟩
    · rw [h]; rfl
    · rw [hm]; simp [patternExtract, ha]
  have e2 : patternExtract (matchPattern2 (jsTrim s).data) = none := by
    rcases h2 with h | ⟨g1, g2, hm, ha⟩
    · rw [h]; rfl
    · rw [hm]; simp [patternExtract, ha]
  refine ⟨?_, by decide⟩
  unfold parseInput
  rw [e1, e2]

/-- Witness for the no-match theorem at the concrete input "just text". -/
theorem parseInput_none_without_numeric_match_witness :
    matchPattern1 (jsTrim "just text").data = none ∧ parseInput "just text" = none := by
  have h := parseInput_none_without_numeric_match "just text"
    (Or.inl (by decide)) (Or.inl (by decide))
  exact ⟨by decide, h.1⟩

/-- C2: on a request that passes the header-presence and freshness checks,
the verifier accepts exactly when the supplied signature equals, byte for
byte, "v0=" followed by the hex HMAC-SHA256 digest of
"v0:" + timestamp + ":" + body under the shared secret; consequently, for
any request that verifies, changing any single byte of the supplied
signature makes verification fail.  The statement holds for every digest
function, i.e. it never depends on the digest's internals. -/
theorem verify_accepts_iff_exact_signature
    (hmacSha256Hex : String → String → String) (secret : String) (now : Int)
    (sig ts body : String) (hsig : sig ≠ "") (hts : ts ≠ "")
    (hfresh : tooOldCheck now ts = false) :
    (verifySlackRequest hmacSha256Hex secret now (some sig) (some ts) body = .next
      ↔ sig = "v0=" ++ hmacSha256Hex secret ("v0:" ++ ts ++ ":" ++ body)) ∧
    (verifySlackRequest hmacSha256Hex secret now (some sig) (some ts) body = .next →
      ∀ (i : ℕ) (c : Char), i < sig.data.length → sig.data.get? i ≠ some c →
        verifySlackRequest hmacSha256Hex secret now
          (some (String.mk (sig.data.set i c))) (some ts) body
          = .reject 400 "Invalid signature") := by
  have hexp : ∀ s : String, s ≠ "" →
      verifySlackRequest hmacSha256Hex secret now (some s) (some ts) body =
        (if s = "v0=" ++ hmacSha256Hex secret ("v0:" ++ ts ++ ":" ++ body)
          then VerifyResult.next else .reject 400 "Invalid signature") := by
    intro s hs
    by_cases h : s = "v0=" ++ hmacSha256Hex secret ("v0:" ++ ts ++ ":" ++ body)
    · subst h
      simp [verifySlackRequest, jsTruthy, hs, hts, hfresh]
    · simp [verifySlackRequest, jsTruthy, hs, hts, hfresh, h]
  have hiff : verifySlackRequest hmacSha256Hex secret now (some sig) (some ts) body = .next
      ↔ sig = "v0=" ++ hmacSha256Hex secret ("v0:" ++ ts ++ ":" ++ body) := by
    rw [hexp sig hsig]
    by_cases h : sig = "v0=" ++ hmacSha256Hex secret ("v0:" ++ ts ++ ":" ++ body) <;>
      simp [h]
  refine ⟨hiff, fun hnext i c hi hne => ?_⟩
  have hsEq := hiff.mp hnext
  have hmutne : String.mk (sig.data.set i c) ≠ "" := by
    intro hcontra
    have hdata : sig.data.set i c = [] := congrArg String.data hcontra
    have hlen := List.length_set sig.data i c
    rw [hdata] at hlen
    simp only [List.length_nil] at hlen
    omega
  rw [hexp _ hmutne, if_neg ?_]
  intro habs
  have hdata : sig.data.set i c = sig.data := by
    have : String.mk (sig.data.set i c) = String.mk sig.data := by
      rw [habs, ← hsEq]
    exact congrArg String.data this
  have := get_of_set_in_bounds sig.data i c hi
  rw [hdata] at this
  exact hne this

/-- Witness for the signature-exactness theorem: a correctly computed
signature verifies and its single-byte mutation at index 0 is rejected. -/
theorem verify_accepts_iff_exact_signature_witness :
    verifySlackRequest hmacDemo "s" 0
        (some ("v0=" ++ hmacDemo "s" ("v0:" ++ "100" ++ ":" ++ "b"))) (some "100") "b"
      = .next ∧
    verifySlackRequest hmacDemo "s" 0
        (some (String.mk (("v0=" ++ hmacDemo "s" ("v0:" ++ "100" ++ ":" ++ "b")).data.set 0 'X')))
        (some "100") "b"
      = .reject 400 "Invalid signature" := by
  have h := verify_accepts_iff_exact_signature hmacDemo "s" 0
    ("v0=" ++ hmacDemo "s" ("v0:" ++ "100" ++ ":" ++ "b")) "100" "b"
    (by decide) (by decide) (by decide)
  have hnext := h.1.mpr rfl
  exact ⟨hnext, h.2 hnext 0 'X' (by decide) (by decide)⟩

/-- C3: a request whose (numeric) timestamp header lies more than 300
seconds away from the current time is rejected with the client-error status
400 "Request too old", for every signature value and every digest function,
so the signature comparison is never reached. -/
theorem verify_rejects_stale_timestamp
    (hmacSha256Hex : String → String → String) (secret : String) (now : Int)
    (sig ts body : String) (n : Int) (hsig : sig ≠ "") (htsne : ts ≠ "")
    (hnum : jsStrToNumber ts = some n) (hfar : 300 < (now - n).natAbs) :
    verifySlackRequest hmacSha256Hex secret now (some sig) (some ts) body
      = .reject 400 "Request too old" := by
  simp [verifySlackRequest, jsTruthy, hsig, htsne, tooOldCheck, hnum, hfar]

/-- Witness for the stale-timestamp theorem: now = 1000, timestamp "400",
distance 600 seconds. -/
theorem verify_rejects_stale_timestamp_witness :
    verifySlackRequest hmacDemo "secret" 1000 (some "v0=bad") (some "400") "b"
      = .reject 400 "Request too old" :=
  verify_rejects_stale_timestamp hmacDemo "secret" 1000 "v0=bad" "400" "b" 400
    (by decide) (by decide) (by decide) (by decide)

/-- C1: the `/slack/commands` route is registered WITHOUT the
`verifySlackRequest` middleware, so a request whose signature fails
verification is still processed and its purchase row is appended: the
concrete request below carries a signature the verifier rejects, yet the
route appends the parsed row to the empty ledger. -/
theorem route_appends_despite_invalid_signature :
    verifySlackRequest hmacDemo "secret" 1000 (some "v0=bad") (some "1000") "body"
      = .reject 400 "Invalid signature" ∧
    (slackCommandsRoute envDemo []
        ⟨some "v0=bad", some "1000", "/ai구매", "ChatGPT Plus 20000", "U1", "C1"⟩).2
      = [purchaseRow "2026. 10. 11." "Alice" "ChatGPT Plus" 20000] :=
  ⟨by decide, by decide⟩

/-- C6: the acknowledgment response is always the first element of the
handler's event trace -- no parsing, outbound lookup, append, or follow-up
message precedes it. -/
theorem ack_precedes_all_work (env : Env) (ledger : List Row)
    (req : SlackCommandRequest) :
    ∃ rest, (handleSlackCommand env ledger req).1 = ackEvent :: rest :=
  ⟨(handleAfterAck env ledger req).1, rfl⟩

/-- C7: a failing user lookup never propagates: the resolver returns the
sentinel "Unknown User", and on a well-formed purchase command the handler
still attempts the ledger append with that placeholder purchaser name. -/
theorem user_lookup_failure_degrades_to_placeholder
    (env : Env) (ledger : List Row) (req : SlackCommandRequest) (p : ParsedInput)
    (herr : env.userLookup req.user_id = .error ())
    (hcmd : req.command = "/ai구매")
    (hp : parseInput req.text = some p) :
    getSlackUserInfo env req.user_id = "Unknown User" ∧
    Event.sheetAppend (purchaseRow env.currentDate "Unknown User" p.programName p.amount)
      ∈ (handleSlackCommand env ledger req).1 := by
  have hname : getSlackUserInfo env req.user_id = "Unknown User" := by
    simp [getSlackUserInfo, herr]
  have htrim := trim_ne_empty_of_parse_some req.text p hp
  refine ⟨hname, ?_⟩
  simp [handleSlackCommand, handleAfterAck, hcmd, htrim, hp, hname]

/-- Witness for the lookup-failure theorem at a concrete erroring
environment and the demo purchase command. -/
theorem user_lookup_failure_degrades_to_placeholder_witness :
    getSlackUserInfo envErrDemo "U1" = "Unknown User" ∧
    Event.sheetAppend (purchaseRow "2026. 10. 11." "Unknown User" "ChatGPT Plus" 20000)
      ∈ (handleSlackCommand envErrDemo [] reqDemo).1 :=
  user_lookup_failure_degrades_to_placeholder envErrDemo [] reqDemo
    ⟨"ChatGPT Plus", 20000⟩ rfl rfl (by decide)

/-- C8: the Ledger Appender builds exactly the single row
[date, purchaser, item, amount, ""] and always returns a boolean (it is a
total function, no error escapes its boundary): `true` with the row
appended when the external call succeeds, `false` with the ledger unchanged
when the call fails. -/
theorem addToSpreadsheet_contract (env : Env) (ledger : List Row)
    (purchaserName programName : String) (amount : ℚ) (date : String) :
    (env.sheetsAppendOk = true →
      addToSpreadsheet env ledger purchaserName programName amount date
        = (true, ledger ++ [purchaseRow date purchaserName programName amount])) ∧
    (env.sheetsAppendOk = false →
      addToSpreadsheet env ledger purchaserName programName amount date
        = (false, ledger)) := by
  constructor <;> intro h <;> simp [addToSpreadsheet, h]

/-- Witness for the appender contract, on a succeeding and a failing
Sheets environment. -/
theorem addToSpreadsheet_contract_witness :
    addToSpreadsheet envDemo [] "Alice" "ChatGPT Plus" 20000 "2026. 10. 11."
      = (true, [] ++ [purchaseRow "2026. 10. 11." "Alice" "ChatGPT Plus" 20000]) ∧
    addToSpreadsheet envSheetsFailDemo [] "Alice" "ChatGPT Plus" 20000 "2026. 10. 11."
      = (false, []) :=
  ⟨(addToSpreadsheet_contract envDemo [] "Alice" "ChatGPT Plus" 20000 "2026. 10. 11.").1 rfl,
   (addToSpreadsheet_contract envSheetsFailDemo [] "Alice" "ChatGPT Plus" 20000 "2026. 10. 11.").2 rfl⟩

/-- C9: handling the same well-formed command twice with identical text
appends two (identical) rows -- no deduplication -- so after two successful
invocations the ledger holds both rows and has grown by exactly 2. -/
theorem duplicate_command_appends_two_rows
    (env : Env) (ledger : List Row) (req : SlackCommandRequest) (p : ParsedInput)
    (hcmd : req.command = "/ai구매") (hp : parseInput req.text = some p)
    (hok : env.sheetsAppendOk = true) :
    (handleSlackCommand env (handleSlackCommand env ledger req).2 req).2
        = ledger ++ [purchaseRow env.currentDate (getSlackUserInfo env req.user_id)
            p.programName p.amount,
          purchaseRow env.currentDate (getSlackUserInfo env req.user_id)
            p.programName p.amount] ∧
    (handleSlackCommand env (handleSlackCommand env ledger req).2 req).2.length
        = ledger.length + 2 := by
  have h1 := handle_appends_single_row env ledger req p hcmd hp hok
  have h2 := handle_appends_single_row env (handleSlackCommand env ledger req).2
    req p hcmd hp hok
  rw [h2, h1]
  constructor
  · simp
  · simp

/-- Witness for the duplicate-append theorem on the demo command. -/
theorem duplicate_command_appends_two_rows_witness :
    (handleSlackCommand envDemo (handleSlackCommand envDemo [] reqDemo).2 reqDemo).2
        = [] ++ [purchaseRow "2026. 10. 11." "Alice" "ChatGPT Plus" 20000,
                 purchaseRow "2026. 10. 11." "Alice" "ChatGPT Plus" 20000] ∧
    (handleSlackCommand envDemo (handleSlackCommand envDemo [] reqDemo).2 reqDemo).2.length
        = ([] : List Row).length + 2 :=
  duplicate_command_appends_two_rows envDemo [] reqDemo ⟨"ChatGPT Plus", 20000⟩
    rfl (by decide) rfl

/-- C10: on a command whose name is not "/ai구매" the handler emits only
the acknowledgment and the ledger is unchanged: no user lookup, no append,
and no follow-up message of any kind. -/
theorem unknown_command_only_acks (env : Env) (ledger : List Row)
    (req : SlackCommandRequest) (hcmd : req.command ≠ "/ai구매") :
    handleSlackCommand env ledger req = ([ackEvent], ledger) := by
  simp [handleSlackCommand, handleAfterAck, hcmd]

/-- Witness for the foreign-command theorem at the command "/stats". -/
theorem unknown_command_only_acks_witness :
    handleSlackCommand envDemo [] ⟨"/stats", "hello", "U1", "C1"⟩ = ([ackEvent], []) :=
  unknown_command_only_acks envDemo [] ⟨"/stats", "hello", "U1", "C1"⟩ (by decide)

end AiPurchaseTracker
